import Mathlib

/-
Verification development for the vite-actix repository.

The development shallowly embeds the Rust sources:
  - src/lib.rs            : the forwarding handler `proxy_to_vite`, the process
                            supervisor entry `start_vite_server`, and the
                            directory walker `try_find_vite_dir`;
  - src/proxy_vite_options.rs : the `ProxyViteOptions` configuration store kept
                            in a process-wide `OnceLock`, with `build`,
                            `update_port`, `global` and the defaults.

External effects are made explicit:
  - the process-wide `OnceLock` cell becomes an `Option` value threaded through
    the store operations;
  - the filesystem becomes a predicate telling which directory contains which
    file name;
  - HTTP exchange endpoints become explicit request/response records, and the
    downstream dev server becomes a function from outbound requests to
    responses;
  - byte buffers become `List Nat`, chunked payload streams `List (List Nat)`.
-/

/- Maximum payload size allowed for forwarding requests and responses,
   from src/lib.rs: 1024 * 1024 * 1024 bytes (1 GiB). -/
def MAX_PAYLOAD_SIZE : Nat := 1024 * 1024 * 1024

/- Errors produced by `proxy_to_vite`: `ErrorPayloadTooLarge` and
   `ErrorInternalServerError` from actix, each carrying its message. -/
inductive ProxyError where
  | payloadTooLarge (msg : String) : ProxyError
  | internalServerError (msg : String) : ProxyError
deriving DecidableEq

/- An incoming HTTP request as seen by `proxy_to_vite`: method and header set
   from `req.head()`, the request target from `req.uri()` (path and query),
   and the body as the stream of chunks yielded by `web::Payload`. -/
structure InRequest where
  method : String
  uri : String
  headers : List (String × String)
  payload : List (List Nat)
deriving DecidableEq

/- The outbound request issued through `awc::Client`: `request_from` clones
   the method and headers of the incoming request, the URL is the computed
   forward URL, and the body is the fully buffered incoming payload
   (`send_body`).  Decompression is disabled (`no_decompress`), so the body
   relayed back is the raw downstream bytes. -/
structure OutRequest where
  method : String
  url : String
  headers : List (String × String)
  body : List Nat
deriving DecidableEq

/- A downstream (Vite dev server) response: status, header pairs in iteration
   order of `forwarded_resp.headers()`, and the body as a stream of chunks. -/
structure DownResponse where
  status : Nat
  headers : List (String × String)
  bodyChunks : List (List Nat)
deriving DecidableEq

/- The response returned to the original caller, built with
   `HttpResponse::build(status)`, header insertions, and the buffered body. -/
structure OutResponse where
  status : Nat
  headers : List (String × String)
  body : List Nat
deriving DecidableEq

/- Payload buffering loop of src/lib.rs: starting from the buffer `acc`,
   append chunks one by one; before appending a chunk, if the accumulated
   length plus the chunk length would exceed MAX_PAYLOAD_SIZE, abort with
   ErrorPayloadTooLarge carrying `msg`.  The same loop shape is used for the
   request payload (msg "Payload overflow") and the response payload
   (msg "Response payload overflow"). -/
def bufferAux (msg : String) : List Nat → List (List Nat) → Except ProxyError (List Nat)
  | acc, [] => Except.ok acc
  | acc, c :: cs =>
    if acc.length + c.length > MAX_PAYLOAD_SIZE then
      Except.error (ProxyError.payloadTooLarge msg)
    else
      bufferAux msg (acc ++ c) cs

/- Buffer a whole chunk stream starting from the empty buffer. -/
def buffer_chunks (msg : String) (chunks : List (List Nat)) : Except ProxyError (List Nat) :=
  bufferAux msg [] chunks

/- One step of the header copying loop: actix `ResponseBuilder::insert_header`
   replaces any header already set with an equivalent field name, then adds
   the new pair. -/
def insert_header (hs : List (String × String)) (h : String × String) : List (String × String) :=
  (hs.filter (fun p => !(p.fst == h.fst))) ++ [h]

/- The header copying loop of `proxy_to_vite`: every (name, value) pair of the
   downstream response is inserted, in iteration order, into the fresh
   response builder. -/
def copy_headers (hs : List (String × String)) : List (String × String) :=
  hs.foldl insert_header []

/- Forward URL construction of src/lib.rs lines 203-207: the VITE_PORT
   environment variable (None when unset), defaulting to "5173", spliced
   between "http://localhost:" and the original request URI. -/
def forward_url (envVitePort : Option String) (uri : String) : String :=
  String.append (String.append ("http://localhost:") (envVitePort.getD ("5173"))) uri

/- Shallow embedding of `proxy_to_vite` (src/lib.rs lines 193-258).
   `envVitePort` is the value of the VITE_PORT environment variable;
   `downstream` is the behaviour of the dev server reached by `send_body`
   (an `Except` so a connection failure is an error with a message).
   On success the result records both the outbound request that was issued
   and the response returned to the caller; an error means no response was
   relayed, and when the error arises before `downstream` is consulted no
   outbound request was issued at all. -/
def proxy_to_vite (envVitePort : Option String) (req : InRequest)
    (downstream : OutRequest → Except String DownResponse) :
    Except ProxyError (OutRequest × OutResponse) :=
  let url := forward_url envVitePort req.uri
  match buffer_chunks ("Payload overflow") req.payload with
  | Except.error e => Except.error e
  | Except.ok body =>
    let outreq : OutRequest := { method := req.method, url := url, headers := req.headers, body := body }
    match downstream outreq with
    | Except.error msg =>
      Except.error (ProxyError.internalServerError (String.append ("Failed to forward request: ") msg))
    | Except.ok resp =>
      match buffer_chunks ("Response payload overflow") resp.bodyChunks with
      | Except.error e => Except.error e
      | Except.ok respBody =>
        Except.ok (outreq, { status := resp.status, headers := copy_headers resp.headers, body := respBody })

/- Concrete inputs used by witnesses and counterexamples. -/

/- The request of C5: GET /assets/app.js with no extra headers and an empty
   body stream. -/
def reqAssets : InRequest := { method := "GET", uri := "/assets/app.js", headers := [], payload := [] }

/- A downstream response carrying two headers with the same field name. -/
def respDup : DownResponse :=
  { status := 200
  , headers := [("set-cookie", "a=1"), ("set-cookie", "b=2")]
  , bodyChunks := [] }

/- A request whose single body chunk is one byte longer than the 1 GiB cap. -/
def reqBig : InRequest :=
  { method := "POST", uri := "/upload", headers := [], payload := [List.replicate (MAX_PAYLOAD_SIZE + 1) 0] }

/- A trivial downstream behaviour used where the downstream must not matter. -/
def downNoop : OutRequest → Except String DownResponse :=
  fun _ => Except.ok { status := 200, headers := [], bodyChunks := [] }

/- The request of the C2 counterexample: a plain GET for the site root with
   an empty body stream, arriving while VITE_PORT is unset. -/
def reqRoot : InRequest := { method := "GET", uri := "/", headers := [], payload := [] }

/- A small well-behaved downstream response: one header, one body chunk. -/
def respJs : DownResponse :=
  { status := 200
  , headers := [("content-type", "text/javascript")]
  , bodyChunks := [[104, 105]] }

/- String primitives used by start_vite_server, spelled out structurally so
   that every claim can be evaluated on concrete inputs.  They mirror the
   Rust primitives used by the source: `str::trim` (drop leading and trailing
   whitespace) and `str::split("\n")`. -/

/- Rust `str::trim` on a character list. -/
def trimChars (cs : List Char) : List Char :=
  ((cs.dropWhile Char.isWhitespace).reverse.dropWhile Char.isWhitespace).reverse

/- Rust `str::trim` on a string. -/
def strTrim (s : String) : String := String.mk (trimChars s.data)

/- Rust `str::split("\n")`: split into the list of newline-separated segments
   (never empty; adjacent separators give empty segments, as in Rust). -/
def splitNl : List Char → List (List Char)
  | [] => [[]]
  | c :: rest =>
    if c = '\n' then [] :: splitNl rest
    else
      match splitNl rest with
      | [] => [[c]]
      | g :: gs => (c :: g) :: gs

/- Error surface of `start_vite_server` that the claims are about:
   `std::io::ErrorKind::NotFound` when the vite executable is missing. -/
inductive ViteError where
  | notFound : ViteError
deriving DecidableEq

/- The spawn request `start_vite_server` hands to the OS on success:
   `Command::new(vite).current_dir(working_dir).arg(..).spawn()`.  An
   `Except.error` result means no spawn request was issued at all. -/
structure SpawnCmd where
  program : String
  working_dir : String
  args : List String
deriving DecidableEq

/- Selection of the executable among newline-separated candidates
   (src/lib.rs lines 316-322): split the trimmed output on newlines, take the
   last entry, trim it again. -/
def last_candidate (trimmed : String) : String :=
  String.mk (trimChars ((splitNl trimmed.data).getLastD []))

/- The executable-locator part of `start_vite_server` (src/lib.rs lines
   296-322): the captured stdout of `which vite` (already UTF-8 decoded) is
   trimmed; empty output means the executable was not found (NotFound);
   otherwise the last newline-separated candidate is selected. -/
def locate_vite (whichOutput : String) : Except ViteError String :=
  let vite := strTrim whichOutput
  if vite = ("") then Except.error ViteError.notFound
  else Except.ok (last_candidate vite)

/- A filesystem, as far as try_find_vite_dir observes it: which directory
   (a list of path components below the root "/") contains which file name.
   Directories are absolute: [] is the root, ["a", "b"] is /a/b. -/
def FS : Type := List String → String → Bool

/- The probe of src/proxy_vite_options.rs line 94 (same in src/lib.rs line
   377): the directory contains vite.config.ts or vite.config.js. -/
def hasConfig (fs : FS) (dir : List String) : Bool :=
  fs dir ("vite.config.ts") || fs dir ("vite.config.js")

/- The upward walk of `try_find_vite_dir`, with explicit fuel so the
   recursion is structural.  One call per loop iteration: stop with none at
   the root, return the directory when it has a config file, otherwise move
   to the parent (`dropLast`).  The fuel `cwd.length` bounds the number of
   strict ancestors, so it never runs out before the root is reached. -/
def tfvdAux (fs : FS) : Nat → List String → Option (List String)
  | 0, _ => none
  | Nat.succ n, cwd =>
    if cwd = [] then none
    else if hasConfig fs cwd then some cwd
    else tfvdAux fs n cwd.dropLast

/- Shallow embedding of `try_find_vite_dir` (src/proxy_vite_options.rs lines
   87-109 and src/lib.rs lines 370-392), as a function of the observed
   filesystem and the starting (current working) directory. -/
def try_find_vite_dir (fs : FS) (cwd : List String) : Option (List String) :=
  tfvdAux fs cwd.length cwd

/- The chain of directories the walker visits: the start and its strict
   ancestors, nearest first, stopping before the root. -/
def ancestorChainAux : Nat → List String → List (List String)
  | 0, _ => []
  | Nat.succ n, cwd => if cwd = [] then [] else cwd :: ancestorChainAux n cwd.dropLast

/- All non-root ancestors of a directory (itself included), nearest first. -/
def ancestorChain (cwd : List String) : List (List String) :=
  ancestorChainAux cwd.length cwd

/- Render a directory back to the path string the source returns
   (`cwd.to_str()`). -/
def pathToString (dir : List String) : String :=
  String.append ("/") (String.intercalate ("/") dir)

/- The log levels of the `log` crate, as stored in ProxyViteOptions. -/
inductive LogLevel where
  | error : LogLevel
  | warn : LogLevel
  | info : LogLevel
  | debug : LogLevel
  | trace : LogLevel
deriving DecidableEq

/- The configuration snapshot of src/proxy_vite_options.rs. -/
structure ProxyViteOptions where
  port : Option Nat
  working_directory : String
  log_level : Option LogLevel
deriving DecidableEq

/- `OnceLock::set`: succeeds and stores the value only when the cell is
   still empty; on an already-filled cell it fails and leaves the cell
   unchanged.  The Bool reports success. -/
def oncelock_set (cell : Option ProxyViteOptions) (v : ProxyViteOptions) :
    Option ProxyViteOptions × Bool :=
  match cell with
  | some c => (some c, false)
  | none => (some v, true)

/- `Default::default` for ProxyViteOptions: no port, working directory from
   try_find_vite_dir with "./" as fallback, log level Debug. -/
def ProxyViteOptions.default (fs : FS) (cwd : List String) : ProxyViteOptions :=
  { port := none
  , working_directory := ((try_find_vite_dir fs cwd).map pathToString).getD ("./")
  , log_level := some LogLevel.debug }

/- `ProxyViteOptions::build` (src/proxy_vite_options.rs lines 61-65):
   commit the explicit options into the OnceLock; error if already set. -/
def ProxyViteOptions.build (cell : Option ProxyViteOptions) (opts : ProxyViteOptions) :
    Option ProxyViteOptions × Except String Unit :=
  match oncelock_set cell opts with
  | (cell2, true) => (cell2, Except.ok ())
  | (cell2, false) => (cell2, Except.error ("Failed to set proxy options"))

/- `ProxyViteOptions::update_port` (src/proxy_vite_options.rs lines 44-60):
   when the cell holds a snapshot, clone it, set the new port, and attempt
   `OnceLock::set` with the updated copy; the set fails on the filled cell
   and the failure is only logged, after which Ok(()) is returned.  When the
   cell is empty nothing happens at all. -/
def ProxyViteOptions.update_port (cell : Option ProxyViteOptions) (port : Nat) :
    Option ProxyViteOptions × Except String Unit :=
  match cell with
  | some current =>
    (Prod.fst (oncelock_set (some current) ({ current with port := some port })), Except.ok ())
  | none => (cell, Except.ok ())

/- `ProxyViteOptions::global` (src/proxy_vite_options.rs lines 66-68):
   `OnceLock::get_or_init(Self::default)` — return the stored snapshot, or
   compute the defaults, store and return them.  The result pairs the
   returned snapshot with the cell state after the call. -/
def ProxyViteOptions.global (fs : FS) (cwd : List String) (cell : Option ProxyViteOptions) :
    ProxyViteOptions × Option ProxyViteOptions :=
  match cell with
  | some c => (c, some c)
  | none => (ProxyViteOptions.default fs cwd, some (ProxyViteOptions.default fs cwd))

/- Shallow embedding of `start_vite_server` (src/lib.rs lines 289-352):
   locate the executable from the captured `which vite` output; on success,
   resolve the working directory (VITE_WORKING_DIR, else try_find_vite_dir,
   else the current directory, else ".") and issue the spawn request with
   `--port` (VITE_PORT or "5173") and `-l warn`.  `cwd` is the process's
   current directory, None when `std::env::current_dir()` fails. -/
def start_vite_server (whichOutput : String) (envWorkingDir : Option String)
    (envVitePort : Option String) (fs : FS) (cwd : Option (List String)) :
    Except ViteError SpawnCmd :=
  match locate_vite whichOutput with
  | Except.error e => Except.error e
  | Except.ok vite =>
    let found := match cwd with
      | some c => try_find_vite_dir fs c
      | none => none
    let working_dir :=
      envWorkingDir.getD ((found.map pathToString).getD ((cwd.map pathToString).getD (".")))
    Except.ok { program := vite
              , working_dir := working_dir
              , args := ["--port", envVitePort.getD ("5173"), "-l", "warn"] }

/- The process supervisor's stdout reader.  The reader loop itself is not
   present in src (src/lib.rs's start_vite_server never pipes or reads the
   child's stdout, while src/proxy_vite_options.rs declares the pub(crate)
   update_port it would call, with no caller anywhere under src); the
   definitions below model it from the spec, section 4.4 step 5. -/

/- Helper for the modelled reader: Bool test that `pat` starts the list. -/
def isPrefixChars : List Char → List Char → Bool
  | [], _ => true
  | _ :: _, [] => false
  | p :: ps, c :: cs => p == c && isPrefixChars ps cs

/- Helper for the modelled reader: `pat` occurs somewhere in the list. -/
def hasSub : List Char → List Char → Bool
  | [], pat => pat.isEmpty
  | c :: rest, pat => isPrefixChars pat (c :: rest) || hasSub rest pat

/- Helper for the modelled reader: the remainder after the first occurrence
   of `pat`, None when `pat` does not occur. -/
def afterSub : List Char → List Char → Option (List Char)
  | [], pat => if pat.isEmpty then some ([] : List Char) else none
  | c :: rest, pat =>
    if isPrefixChars pat (c :: rest) then some (List.drop pat.length (c :: rest))
    else afterSub rest pat

/-- Modelled from the spec: "Strip ANSI escape sequences before matching"
(section 4.4 step 5); the stripping itself is part of the missing reader
loop.  An escape sequence starts at ESC (code 27) and runs to its
terminating letter; everything else is kept. -/
def stripAnsiChars : Bool → List Char → List Char
  | _, [] => []
  | false, c :: rest =>
    if c = Char.ofNat 27 then stripAnsiChars true rest else c :: stripAnsiChars false rest
  | true, c :: rest =>
    if c.isAlpha then stripAnsiChars false rest else stripAnsiChars true rest

/-- Modelled from the spec: ANSI stripping applied to one line of child
stdout, part of the missing reader loop. -/
def strip_ansi (line : String) : String := String.mk (stripAnsiChars false line.data)

/-- Modelled from the spec: the readiness pattern of section 4.4 step 5 —
the line contains the vendor marker token (the arrow the dev server prints
in its ready banner), the word "Local", and the substring
"http://localhost:".  The marker must be the arrow for the spec's own
synthetic-stream test (section 8) to match its second line. -/
def readiness_match (line : String) : Bool :=
  hasSub line.data (("➜").data) && hasSub line.data (("Local").data) &&
    hasSub line.data (("http://localhost:").data)

/- Digits to a number, for the modelled port capture. -/
def digitsToNat (ds : List Char) : Nat :=
  ds.foldl (fun acc c => acc * 10 + (c.toNat - 48)) 0

/-- Modelled from the spec: "extract the port number via a pattern capturing
digits following http://localhost: ...; parse as an unsigned 16-bit
integer" (section 4.4 step 5), part of the missing reader loop.  None when
the readiness pattern does not match, no digits follow the prefix, or the
value overflows u16. -/
def extract_port (line : String) : Option Nat :=
  if readiness_match line then
    match afterSub line.data (("http://localhost:").data) with
    | none => none
    | some rest =>
      let ds := rest.takeWhile Char.isDigit
      if ds.isEmpty then none
      else if digitsToNat ds ≤ 65535 then some (digitsToNat ds) else none
  else none

/-- Modelled from the spec: one iteration of the missing reader loop — strip
ANSI sequences, match and parse, and on success publish the port through
ProxyViteOptions.update_port (section 4.4 step 5). -/
def process_line (cell : Option ProxyViteOptions) (line : String) : Option ProxyViteOptions :=
  match extract_port (strip_ansi line) with
  | some p => Prod.fst (ProxyViteOptions.update_port cell p)
  | none => cell

/-- Modelled from the spec: the missing reader loop over the whole stdout
stream, line by line (section 4.4 steps 4-6), threading the configuration
cell. -/
def supervisor_process (cell : Option ProxyViteOptions) (lines : List String) :
    Option ProxyViteOptions :=
  lines.foldl process_line cell

/- Further concrete inputs used by witnesses and counterexamples. -/

/- A committed snapshot with no port: the defaults when no config dir is
   found. -/
def opts0 : ProxyViteOptions :=
  { port := none, working_directory := "./", log_level := some LogLevel.debug }

/- The filesystem with no files at all. -/
def fsEmpty : FS := fun _ _ => false

/- The filesystem of C8's positive example: vite.config.ts exactly in /a/b. -/
def fsAB : FS := fun dir name => dir == ["a", "b"] && name == ("vite.config.ts")

/- A filesystem whose only config file sits in the root directory. -/
def fsRootTs : FS := fun dir name => dir == ([] : List String) && name == ("vite.config.ts")

/- The synthetic child stdout stream of C3. -/
def viteStream : List String := ["VITE vX ready in 300 ms", "➜ Local: http://localhost:4321/"]

/- A `which vite` output with two installation candidates. -/
def whichTwo : String := "/usr/bin/vite\n/usr/local/bin/vite"

/- Helper lemmas about the buffering loop and the header copy. -/

theorem bufferAux_error (msg : String) (cs : List (List Nat)) :
    ∀ acc : List Nat, acc.length ≤ MAX_PAYLOAD_SIZE →
      acc.length + cs.flatten.length > MAX_PAYLOAD_SIZE →
      bufferAux msg acc cs = Except.error (ProxyError.payloadTooLarge msg) := by
  induction cs with
  | nil =>
    intro acc hle hgt
    simp only [List.flatten_nil, List.length_nil] at hgt
    omega
  | cons c cs ih =>
    intro acc hle hgt
    by_cases h : acc.length + c.length > MAX_PAYLOAD_SIZE
    · simp [bufferAux, h]
    · simp only [bufferAux, h, if_false]
      apply ih
      · simp only [List.length_append]
        omega
      · simp only [List.flatten_cons, List.length_append] at hgt ⊢
        omega

theorem bufferAux_ok (msg : String) (cs : List (List Nat)) :
    ∀ acc : List Nat, acc.length + cs.flatten.length ≤ MAX_PAYLOAD_SIZE →
      bufferAux msg acc cs = Except.ok (acc ++ cs.flatten) := by
  induction cs with
  | nil =>
    intro acc _
    simp [bufferAux, List.flatten]
  | cons c cs ih =>
    intro acc hle
    simp only [List.flatten_cons, List.length_append] at hle
    have h : ¬ acc.length + c.length > MAX_PAYLOAD_SIZE := by omega
    simp only [bufferAux, h, if_false]
    rw [ih (acc ++ c) (by simp only [List.length_append]; omega)]
    simp [List.append_assoc]

theorem copy_headers_aux (hs : List (String × String)) :
    ∀ acc : List (String × String), (hs.map Prod.fst).Nodup →
      (∀ n, n ∈ acc.map Prod.fst → n ∉ hs.map Prod.fst) →
      hs.foldl insert_header acc = acc ++ hs := by
  induction hs with
  | nil =>
    intro acc _ _
    simp
  | cons h t ih =>
    intro acc hnd hdisj
    have hins : insert_header acc h = acc ++ [h] := by
      unfold insert_header
      have : acc.filter (fun p => !(p.fst == h.fst)) = acc := by
        apply List.filter_eq_self.mpr
        intro p hp
        have hp1 : p.fst ∈ acc.map Prod.fst := List.mem_map_of_mem Prod.fst hp
        have : p.fst ∉ (h :: t).map Prod.fst := hdisj p.fst hp1
        simp only [List.map_cons, List.mem_cons] at this
        push_neg at this
        simp [this.left]
      rw [this]
    have hnd' : (t.map Prod.fst).Nodup := by
      simp only [List.map_cons, List.nodup_cons] at hnd
      exact hnd.right
    have hhead : h.fst ∉ t.map Prod.fst := by
      simp only [List.map_cons, List.nodup_cons] at hnd
      exact hnd.left
    have hdisj' : ∀ n, n ∈ (acc ++ [h]).map Prod.fst → n ∉ t.map Prod.fst := by
      intro n hn
      simp only [List.map_append, List.mem_append, List.map_cons, List.map_nil, List.mem_singleton] at hn
      cases hn with
      | inl hn =>
        have := hdisj n hn
        simp only [List.map_cons, List.mem_cons] at this
        push_neg at this
        exact this.right
      | inr hn =>
        subst hn
        exact hhead
    calc (h :: t).foldl insert_header acc = t.foldl insert_header (insert_header acc h) := by
          simp [List.foldl_cons]
      _ = (acc ++ [h]) ++ t := by rw [hins]; exact ih (acc ++ [h]) hnd' hdisj'
      _ = acc ++ (h :: t) := by simp

theorem copy_headers_id (hs : List (String × String)) (hnd : (hs.map Prod.fst).Nodup) :
    copy_headers hs = hs := by
  unfold copy_headers
  have := copy_headers_aux hs [] hnd (by intro n hn; simp at hn)
  simpa using this

/-- C4: for every incoming request whose accumulated body size exceeds
MAX_PAYLOAD_SIZE (1 GiB), `proxy_to_vite` returns the PayloadTooLarge error
raised while buffering the request payload, and this happens for every
possible downstream behaviour — in particular no outbound request is issued
and no partial body is forwarded. -/
theorem payload_too_large_no_forward (envVitePort : Option String) (req : InRequest)
    (h : req.payload.flatten.length > MAX_PAYLOAD_SIZE) :
    ∀ downstream : OutRequest → Except String DownResponse,
      proxy_to_vite envVitePort req downstream =
        Except.error (ProxyError.payloadTooLarge ("Payload overflow")) := by
  intro downstream
  have hb : buffer_chunks ("Payload overflow") req.payload =
      Except.error (ProxyError.payloadTooLarge ("Payload overflow")) := by
    unfold buffer_chunks
    exact bufferAux_error ("Payload overflow") req.payload []
      (by simp) (by simpa using h)
  simp only [proxy_to_vite, hb]

/-- Witness for C4 at a concrete input: a single chunk of 2^30 + 1 zero bytes
exceeds the cap, and the handler rejects it with the request-side
PayloadTooLarge error without consulting the downstream. -/
theorem payload_too_large_no_forward_witness :
    reqBig.payload.flatten.length > MAX_PAYLOAD_SIZE ∧
      proxy_to_vite none reqBig downNoop =
        Except.error (ProxyError.payloadTooLarge ("Payload overflow")) := by
  have hlen : reqBig.payload.flatten.length > MAX_PAYLOAD_SIZE := by
    simp only [reqBig, List.flatten_cons, List.flatten_nil, List.append_nil,
      List.length_replicate]
    omega
  exact ⟨hlen, payload_too_large_no_forward none reqBig hlen downNoop⟩

/- Inversion helper: whenever `proxy_to_vite` relays a response, the outbound
   request it issued carried the computed forward URL. -/
theorem proxy_ok_url (envVitePort : Option String) (req : InRequest)
    (downstream : OutRequest → Except String DownResponse)
    (result : OutRequest × OutResponse)
    (h : proxy_to_vite envVitePort req downstream = Except.ok result) :
    result.fst.url = forward_url envVitePort req.uri := by
  simp only [proxy_to_vite] at h
  split at h
  · simp at h
  · split at h
    · simp at h
    · split at h
      · simp at h
      · simp only [Except.ok.injEq] at h
        rw [← h]

/-- C2 counterexample: with VITE_PORT unset (no port known anywhere) the
handler does not return an internal-error response; it issues an outbound
request to the default port 5173 and relays the downstream response.  This
refutes the claim that, with no port known, `proxy_to_vite` fails fast and
issues no outbound request. -/
theorem proxy_default_port_cex :
    proxy_to_vite none reqRoot downNoop =
      Except.ok ({ method := "GET", url := "http://localhost:5173/", headers := [], body := [] },
                 { status := 200, headers := [], body := [] }) := rfl

/-- C2 amended: when no explicit port is supplied (VITE_PORT unset),
`proxy_to_vite` does not fail fast; whenever it relays a response, the
outbound request it issued targeted the default port 5173, at URL
"http://localhost:5173" followed by the original request URI. -/
theorem proxy_unset_port_defaults_5173 (req : InRequest)
    (downstream : OutRequest → Except String DownResponse)
    (result : OutRequest × OutResponse)
    (h : proxy_to_vite none req downstream = Except.ok result) :
    result.fst.url = String.append ("http://localhost:5173") req.uri := by
  rw [proxy_ok_url none req downstream result h]
  rfl

/-- Witness for C2's amended claim at a concrete input: a GET for /x with
VITE_PORT unset is relayed, and the outbound URL is http://localhost:5173/x. -/
theorem proxy_unset_port_defaults_5173_witness :
    (({ method := "GET", url := "http://localhost:5173/x", headers := [], body := [] },
       { status := 200, headers := [], body := [] }) : OutRequest × OutResponse).fst.url =
      String.append ("http://localhost:5173") ("/x") :=
  proxy_unset_port_defaults_5173
    { method := "GET", uri := "/x", headers := [], payload := [] } downNoop
    ({ method := "GET", url := "http://localhost:5173/x", headers := [], body := [] },
     { status := 200, headers := [], body := [] }) rfl

/-- C5 counterexample: the header-copy loop uses actix `insert_header`, which
replaces any previously inserted header with the same name, so a downstream
response with two set-cookie headers is relayed with only the last one — the
returned header set is not identical to the downstream header set. -/
theorem proxy_duplicate_headers_cex :
    proxy_to_vite (some ("4321")) reqAssets (fun _ => Except.ok respDup) =
      Except.ok ({ method := "GET", url := "http://localhost:4321/assets/app.js", headers := [], body := [] },
                 { status := 200, headers := [("set-cookie", "b=2")], body := [] }) ∧
      ([("set-cookie", "b=2")] : List (String × String)) ≠ respDup.headers := by
  exact ⟨rfl, by decide⟩

/-- C5 amended: a GET for /assets/app.js while VITE_PORT is "4321" is
forwarded as GET http://localhost:4321/assets/app.js, and every downstream
response whose body fits within MAX_PAYLOAD_SIZE and whose header names are
pairwise distinct is relayed with the same status code, the same header set
with identical values, and a byte-identical body. -/
theorem proxy_relay_amended (resp : DownResponse)
    (h1 : (resp.headers.map Prod.fst).Nodup)
    (h2 : resp.bodyChunks.flatten.length ≤ MAX_PAYLOAD_SIZE) :
    proxy_to_vite (some ("4321")) reqAssets (fun _ => Except.ok resp) =
      Except.ok ({ method := "GET", url := "http://localhost:4321/assets/app.js", headers := [], body := [] },
                 { status := resp.status, headers := resp.headers, body := resp.bodyChunks.flatten }) := by
  have hb : buffer_chunks ("Payload overflow") reqAssets.payload = Except.ok [] := rfl
  have hr : buffer_chunks ("Response payload overflow") resp.bodyChunks =
      Except.ok resp.bodyChunks.flatten := by
    unfold buffer_chunks
    simpa using bufferAux_ok ("Response payload overflow") resp.bodyChunks [] (by simpa using h2)
  simp only [proxy_to_vite, hb, hr, copy_headers_id resp.headers h1]
  rfl

/-- Witness for C5's amended claim at a concrete downstream response with one
content-type header and the two-byte body "hi". -/
theorem proxy_relay_amended_witness :
    (respJs.headers.map Prod.fst).Nodup ∧
      respJs.bodyChunks.flatten.length ≤ MAX_PAYLOAD_SIZE ∧
      proxy_to_vite (some ("4321")) reqAssets (fun _ => Except.ok respJs) =
        Except.ok ({ method := "GET", url := "http://localhost:4321/assets/app.js", headers := [], body := [] },
                   { status := respJs.status, headers := respJs.headers, body := respJs.bodyChunks.flatten }) :=
  ⟨by decide, by decide, proxy_relay_amended respJs (by decide) (by decide)⟩

/- Helper lemmas about the directory walker. -/

theorem tfvdAux_eq_find (fs : FS) :
    ∀ (n : Nat) (cwd : List String),
      tfvdAux fs n cwd = (ancestorChainAux n cwd).find? (fun d => hasConfig fs d) := by
  intro n
  induction n with
  | zero =>
    intro cwd
    rfl
  | succ n ih =>
    intro cwd
    by_cases h0 : cwd = []
    · simp [tfvdAux, ancestorChainAux, h0]
    · by_cases h1 : hasConfig fs cwd = true
      · simp [tfvdAux, ancestorChainAux, h0, h1, List.find?_cons]
      · simp only [Bool.not_eq_true] at h1
        simp [tfvdAux, ancestorChainAux, h0, h1, List.find?_cons, ih]

theorem ancestorChainAux_ne_root :
    ∀ (n : Nat) (cwd d : List String), d ∈ ancestorChainAux n cwd → ¬ d = [] := by
  intro n
  induction n with
  | zero =>
    intro cwd d hd
    simp [ancestorChainAux] at hd
  | succ n ih =>
    intro cwd d hd
    by_cases h0 : cwd = []
    · simp [ancestorChainAux, h0] at hd
    · simp only [ancestorChainAux, h0, if_false, List.mem_cons] at hd
      cases hd with
      | inl hd => intro hnil; exact h0 (hd.symm.trans hnil)
      | inr hd => exact ih cwd.dropLast d hd

/-- C8 counterexample: an ancestor containing a recognized config file can
exist and still not be returned — when vite.config.ts sits in the filesystem
root, resolving from /a returns none even though the root is an ancestor of
/a containing the file.  This refutes the claim that the resolver returns
the nearest config-bearing ancestor for every starting directory. -/
theorem resolver_root_config_cex :
    hasConfig fsRootTs [] = true ∧ try_find_vite_dir fsRootTs ["a"] = none := by
  decide

/-- C8 amended: the resolver returns the nearest ancestor (the start
included) strictly below the filesystem root that contains vite.config.ts
or vite.config.js, and none when no non-root ancestor contains one: the
result is always the first config-bearing entry of the chain of non-root
ancestors ordered nearest first.  In particular resolving from /a/b/c with
the config file at /a/b returns /a/b, and resolving from /x/y above an empty
filesystem returns none. -/
theorem resolver_nearest_nonroot_ancestor :
    (∀ (fs : FS) (start : List String),
      try_find_vite_dir fs start = (ancestorChain start).find? (fun d => hasConfig fs d)) ∧
    try_find_vite_dir fsAB ["a", "b", "c"] = some ["a", "b"] ∧
    try_find_vite_dir fsEmpty ["x", "y"] = none := by
  refine ⟨?_, by decide, by decide⟩
  intro fs start
  exact tfvdAux_eq_find fs start.length start

/-- C10: the walker's loop exits when the current directory reaches the
filesystem root, so the root itself is never probed: whenever the config
files exist nowhere outside the root, resolution returns none from every
starting directory. -/
theorem resolver_never_probes_root (fs : FS) (start : List String)
    (h : ∀ d : List String, hasConfig fs d = true → d = []) :
    try_find_vite_dir fs start = none := by
  unfold try_find_vite_dir
  rw [tfvdAux_eq_find]
  apply List.find?_eq_none.mpr
  intro d hd hc
  exact ancestorChainAux_ne_root start.length start d hd (h d hc)

/-- Witness for C10 at a concrete input: with vite.config.ts only in the
root, resolving from /a/b returns none. -/
theorem resolver_never_probes_root_witness :
    try_find_vite_dir fsRootTs ["a", "b"] = none :=
  resolver_never_probes_root fsRootTs ["a", "b"] (by
    intro d hd
    simp only [hasConfig, fsRootTs, Bool.or_eq_true, Bool.and_eq_true, beq_iff_eq] at hd
    rcases hd with ⟨h1, _⟩ | ⟨h1, _⟩ <;> exact h1)

/-- C9: calling the store's get-or-init twice without an intervening build
returns the same snapshot both times and leaves the cell unchanged after the
first call — the second call performs no re-initialization. -/
theorem global_get_or_init_idempotent (fs : FS) (cwd : List String)
    (cell : Option ProxyViteOptions) :
    (ProxyViteOptions.global fs cwd (ProxyViteOptions.global fs cwd cell).snd).fst =
        (ProxyViteOptions.global fs cwd cell).fst ∧
      (ProxyViteOptions.global fs cwd (ProxyViteOptions.global fs cwd cell).snd).snd =
        (ProxyViteOptions.global fs cwd cell).snd := by
  cases cell <;> simp [ProxyViteOptions.global]

/-- C1: evaluation of update_port on a committed snapshot.  update_port(4321)
reports Ok yet leaves the committed cell unchanged — OnceLock::set always
fails on the filled cell — so the immediately following global() read still
returns a snapshot whose port is none, not 4321.  This exhibits the
write-once-store bug the claim (and spec sections 4.1 and 9) rule out. -/
theorem update_port_read_back_bug :
    (ProxyViteOptions.update_port (some opts0) 4321).snd = Except.ok () ∧
      (ProxyViteOptions.update_port (some opts0) 4321).fst = some opts0 ∧
      (ProxyViteOptions.global fsEmpty []
        (ProxyViteOptions.update_port (some opts0) 4321).fst).fst.port = none :=
  ⟨rfl, rfl, rfl⟩

/-- C3: evaluation of the supervisor's parsing on the synthetic stream.  The
modelled reader parses 4321 out of the ready banner line and hands it to
update_port, but update_port discards it (write-once cell), so after
processing the whole stream the committed snapshot still has port none
rather than 4321. -/
theorem supervisor_port_record_bug :
    extract_port (strip_ansi ("➜ Local: http://localhost:4321/")) = some 4321 ∧
      supervisor_process (some opts0) viteStream = some opts0 ∧
      opts0.port = none :=
  ⟨rfl, rfl, rfl⟩

/-- C6: when the captured output of the PATH lookup is empty after trimming,
start_vite_server fails with NotFound and issues no spawn request, whatever
the environment, filesystem and current directory are. -/
theorem vite_not_found_no_spawn (whichOutput : String) (h : strTrim whichOutput = "")
    (envWorkingDir envVitePort : Option String) (fs : FS) (cwd : Option (List String)) :
    start_vite_server whichOutput envWorkingDir envVitePort fs cwd =
      Except.error ViteError.notFound := by
  simp [start_vite_server, locate_vite, h]

/-- Witness for C6 at a concrete input: whitespace-only lookup output trims
to empty and start_vite_server returns NotFound. -/
theorem vite_not_found_no_spawn_witness :
    strTrim (" \n ") = "" ∧
      start_vite_server (" \n ") none none fsEmpty none = Except.error ViteError.notFound :=
  ⟨by decide, vite_not_found_no_spawn (" \n ") (by decide) none none fsEmpty none⟩

/-- C7: whenever the PATH lookup output is non-empty after trimming, the
executable start_vite_server spawns is exactly the last newline-separated
candidate of the trimmed output, trimmed of whitespace — the deterministic
last-line selection. -/
theorem locator_selects_last_line (whichOutput : String) (h : ¬ strTrim whichOutput = "")
    (envWorkingDir envVitePort : Option String) (fs : FS) (cwd : Option (List String)) :
    Except.map SpawnCmd.program (start_vite_server whichOutput envWorkingDir envVitePort fs cwd) =
      Except.ok (last_candidate (strTrim whichOutput)) := by
  simp [start_vite_server, locate_vite, h, Except.map]

/-- Witness for C7 at a concrete input: of the two candidates /usr/bin/vite
and /usr/local/bin/vite, the spawned program is the last one. -/
theorem locator_selects_last_line_witness :
    ¬ strTrim whichTwo = "" ∧
      Except.map SpawnCmd.program (start_vite_server whichTwo none none fsEmpty none) =
        Except.ok ("/usr/local/bin/vite") := by
  refine ⟨by decide, ?_⟩
  rw [locator_selects_last_line whichTwo (by decide) none none fsEmpty none]
  rfl
